import Mathlib

/-!
Verification development for the Trakt-sync token lifecycle and dedupe
cache of the `scripts` repository.  The definitions below are a shallow
embedding of `src/tautulli/traktsync/traktsync.py` (the current script)
and, where noted, of the older variant `src/tautulli/traktsync.py`.
HTTP traffic, wall-clock time and file contents are passed in explicitly;
integers model Unix timestamps in seconds.
-/

namespace TraktSync

/-- Shape of a token record as exchanged with the Trakt token endpoint and
persisted in `trakt_token.json`.  Every field is optional because the code
persists `response.json()` verbatim, whatever fields it happens to carry;
`expires_at` is read back with a default of `0` when absent. -/
structure TokenData where
  access_token : Option String
  refresh_token : Option String
  expires_in : Option Int
  created_at : Option Int
  expires_at : Option Int
deriving DecidableEq, Repr

/-- State of the persisted token file `trakt_token.json`: absent
(`FileNotFoundError`), unparsable (`json.JSONDecodeError`), or holding a
token record. -/
inductive TokenFile where
  | missing
  | corrupt
  | stored (t : TokenData)
deriving DecidableEq, Repr

/-- The mutable module state of the script: the global `trakt_token`
variable (initially `None`) and the token file. -/
structure TokenState where
  token : Option TokenData
  file : TokenFile
deriving DecidableEq, Repr

/-- Outcome of one POST to the token endpoint inside `refresh_token`:
a 200 response with a parsed JSON body (`ok none` models a falsy body),
a non-200 status, or a `requests.exceptions.RequestException`
(network/DNS failure or timeout). -/
inductive RefreshOutcome where
  | ok (body : Option TokenData)
  | httpError (status : Nat)
  | netError
deriving DecidableEq, Repr

/-- Observable actions of a run, in order: the interactive authorization
flow of `request_new_token`, one POST to the token endpoint
(`refreshAttempt n` is the n-th attempt, 1-based), a `time.sleep`,
a `save_token` write, and the downstream Trakt API calls. -/
inductive Event where
  | interactiveAuth
  | refreshAttempt (n : Nat)
  | sleep (seconds : Int)
  | saveToken (t : TokenData)
  | apiGet (endpoint : String)
  | apiPost (endpoint : String)
deriving DecidableEq, Repr

/-- How a `refresh_token` run ends: a new token was stored, the no-token
branch fell through to `request_new_token`, or all retries were exhausted
(the code prints `ERROR: Failed to refresh token after all retries.` and
returns with the old state; the spec calls this outcome
`AuthenticationRequired`). -/
inductive RefreshResult where
  | refreshed (t : TokenData)
  | reauthorized (t : TokenData)
  | authRequired
deriving DecidableEq, Repr

/-- `max_retries = 5` from `refresh_token`. -/
def maxRetries : Nat := 5

/-- `base_delay = 3` from `refresh_token`. -/
def baseDelay : Int := 3

/-- Kernel-friendly `2 ** attempt` (the Python exponent in the backoff
computation `base_delay * (2 ** attempt)`). -/
def pow2 : Nat → Int
  | 0 => 1
  | n + 1 => 2 * pow2 n

/-- A refresh attempt stores a new token exactly when the response had
status 200 and its body was a truthy dict containing `access_token`
(the code guard `if token_data and "access_token" in token_data`). -/
def attemptSucceeds : RefreshOutcome → Option TokenData
  | .ok (some b) => if b.access_token.isSome then some b else none
  | .ok none => none
  | .httpError _ => none
  | .netError => none

/-- Transient failures in the spec's taxonomy: network/DNS errors, 5xx
responses, and 200 responses whose body is missing `access_token`. -/
def isTransient : RefreshOutcome → Bool
  | .netError => true
  | .httpError s => decide (500 ≤ s)
  | .ok none => true
  | .ok (some b) => b.access_token.isNone

/-- The `for attempt in range(max_retries)` loop of `refresh_token`
(src/tautulli/traktsync/traktsync.py lines 110-141).  `outcome i` is the
response to the (i+1)-th POST.  On success the loop saves the token and
returns; on failure it sleeps `base_delay * 2 ** attempt` seconds unless
this was the last attempt (`attempt < max_retries - 1`), here expressed as
`remaining` being more than one. -/
def refreshAttempts (outcome : Nat → RefreshOutcome) :
    Nat → Nat → List Event × RefreshResult
  | _, 0 => ([], .authRequired)
  | attempt, r + 1 =>
    match attemptSucceeds (outcome attempt) with
    | some b => ([.refreshAttempt (attempt + 1), .saveToken b], .refreshed b)
    | none =>
      if r = 0 then
        ([.refreshAttempt (attempt + 1)], .authRequired)
      else
        let p := refreshAttempts outcome (attempt + 1) r
        (.refreshAttempt (attempt + 1) :: .sleep (baseDelay * pow2 attempt) :: p.1, p.2)

/-- Embedding of `request_new_token` (lines 83-97): prints the
authorization URL, blocks on operator input, exchanges the code, and
persists `response.json()` verbatim via `save_token`.  `resp` is the
parsed body of the exchange response. -/
def request_new_token (resp : TokenData) (s : TokenState) :
    TokenState × List Event :=
  let _ := s
  ({ token := some resp, file := .stored resp },
   [Event.interactiveAuth, Event.saveToken resp])

/-- Embedding of `refresh_token` (lines 99-143): with no current token it
falls back to `request_new_token`; otherwise it runs the retry loop and,
on success, swaps the global token and writes the file (`save_token`);
on exhaustion it leaves the state untouched and reports the failure. -/
def refresh_token (outcome : Nat → RefreshOutcome) (resp : TokenData)
    (s : TokenState) : TokenState × List Event × RefreshResult :=
  match s.token with
  | none =>
    let r := request_new_token resp s
    (r.1, r.2, .reauthorized resp)
  | some _ =>
    let p := refreshAttempts outcome 0 maxRetries
    match p.2 with
    | .refreshed b => ({ token := some b, file := .stored b }, p.1, .refreshed b)
    | _ => (s, p.1, .authRequired)

/-- Embedding of `load_or_refresh_token` (lines 69-77): reads the token
file; a missing or unparsable file routes to `request_new_token`; a stored
token is refreshed when `trakt_token.get("expires_at", 0) - 300 <
time.time()`. -/
def load_or_refresh_token (now : Int) (outcome : Nat → RefreshOutcome)
    (resp : TokenData) (file : TokenFile) : TokenState × List Event :=
  match file with
  | .stored t =>
    if t.expires_at.getD 0 - 300 < now then
      let r := refresh_token outcome resp ⟨some t, file⟩
      (r.1, r.2.1)
    else (⟨some t, file⟩, [])
  | .missing => request_new_token resp ⟨none, .missing⟩
  | .corrupt => request_new_token resp ⟨none, .corrupt⟩

/-- Embedding of the older `refresh_token` in src/tautulli/traktsync.py
(lines 104-116): it POSTs the refresh request and unconditionally stores
`response.json()` as the new token, with no status check or retry, then
writes the file. -/
def refresh_token_legacy (respBody : TokenData) (s : TokenState) :
    TokenState × List Event :=
  let _ := s
  ({ token := some respBody, file := .stored respBody },
   [Event.saveToken respBody])

/-- Whether `get_headers` (lines 145-153) attaches an `Authorization`
header: the global token must be truthy and contain `access_token`. -/
def get_headers_hasAuth (token : Option TokenData) : Bool :=
  match token with
  | some t => t.access_token.isSome
  | none => false

/-- The in-memory dedupe map, as Python dict semantics over its lookups:
a partial map from cache keys to `last_seen_at` timestamps. -/
def DCache : Type := String → Option Int

/-- State of the persisted dedupe file `trakt_dedupe.json`: absent,
unusable (unparsable JSON, or valid JSON that is not a dict — both make
`load_dedupe_cache` return an empty dict), or holding a map. -/
inductive DedupeFile where
  | missing
  | corrupt
  | content (c : DCache)

/-- `DEDUPE_WINDOW_SECONDS = 60 * 60`. -/
def DEDUPE_WINDOW_SECONDS : Int := 60 * 60

/-- Embedding of `load_dedupe_cache` (lines 231-239): a missing or
unusable file yields an empty map. -/
def load_dedupe_cache : DedupeFile → DCache
  | .content c => c
  | .missing => fun _ => none
  | .corrupt => fun _ => none

/-- The dict comprehension pruning stale entries on write:
`cache = \x7bk: v for k, v in cache.items() if v >= cutoff\x7d`. -/
def pruneCache (c : DCache) (cutoff : Int) : DCache :=
  fun k =>
    match c k with
    | some v => if cutoff ≤ v then some v else none
    | none => none

/-- The dict update `cache[cache_key] = now_ts`. -/
def setKey (c : DCache) (key : String) (v : Int) : DCache :=
  fun k => if k = key then some v else c k

/-- The guard `if last_ts and (now_ts - last_ts) < DEDUPE_WINDOW_SECONDS`:
`cache.get(cache_key)` must be truthy (present and nonzero) and within the
window. -/
def duplicateHit (cache : DCache) (key : String) (now : Int) : Bool :=
  match cache key with
  | some last => decide (last ≠ 0) && decide (now - last < DEDUPE_WINDOW_SECONDS)
  | none => false

/-- Embedding of `is_recent_duplicate` (lines 245-256): loads the cache,
returns `true` (file untouched) on an in-window truthy hit; otherwise
prunes entries older than `now - 2 * window`, records `key -> now`, writes
the file via `save_dedupe_cache`, and returns `false`. -/
def is_recent_duplicate (file : DedupeFile) (key : String) (now : Int) :
    Bool × DedupeFile :=
  let cache := load_dedupe_cache file
  if duplicateHit cache key now then (true, file)
  else
    (false,
     .content (setKey (pruneCache cache (now - 2 * DEDUPE_WINDOW_SECONDS)) key now))

/-- Outcome of one downstream Trakt API request: an HTTP status, or a
`requests.exceptions.RequestException`. -/
inductive HttpOutcome where
  | status (code : Nat)
  | netError
deriving DecidableEq, Repr

/-- Embedding of the retry loop of `trakt_request` (lines 155-192) as the
sequence of attempts it performs: one GET per attempt; status 200 returns
the body (modelled as success `true`, with a usable nonempty result);
a 5xx sleeps and retries while attempts remain; any other status returns
`None`; an exception sleeps and retries while attempts remain. -/
def traktRequestGo (endpoint : String) (outcome : Nat → HttpOutcome) :
    Nat → Nat → List Event × Bool
  | _, 0 => ([], false)
  | attempt, r + 1 =>
    match outcome attempt with
    | .status 200 => ([.apiGet endpoint], true)
    | .status c =>
      if 500 ≤ c ∧ r ≠ 0 then
        let p := traktRequestGo endpoint outcome (attempt + 1) r
        (.apiGet endpoint :: .sleep (baseDelay * pow2 attempt) :: p.1, p.2)
      else ([.apiGet endpoint], false)
    | .netError =>
      if r ≠ 0 then
        let p := traktRequestGo endpoint outcome (attempt + 1) r
        (.apiGet endpoint :: .sleep (baseDelay * pow2 attempt) :: p.1, p.2)
      else ([.apiGet endpoint], false)

/-- Embedding of the POST loop of `mark_as_watched` (lines 306-338):
one POST to `sync/history` per attempt; 201 is success; any other status
retries only when 5xx and attempts remain; an exception retries while
attempts remain. -/
def syncPostGo (outcome : Nat → HttpOutcome) :
    Nat → Nat → List Event × Bool
  | _, 0 => ([], false)
  | attempt, r + 1 =>
    match outcome attempt with
    | .status 201 => ([.apiPost "sync/history"], true)
    | .status c =>
      if 500 ≤ c ∧ r ≠ 0 then
        let p := syncPostGo outcome (attempt + 1) r
        (.apiPost "sync/history" :: .sleep (baseDelay * pow2 attempt) :: p.1, p.2)
      else ([.apiPost "sync/history"], false)
    | .netError =>
      if r ≠ 0 then
        let p := syncPostGo outcome (attempt + 1) r
        (.apiPost "sync/history" :: .sleep (baseDelay * pow2 attempt) :: p.1, p.2)
      else ([.apiPost "sync/history"], false)

/-- Inputs of one `mark_as_watched` run on the movie path: the IMDb id,
the wall clock, both persisted files, and the responses each network call
would receive. -/
structure MovieEnv where
  imdb : String
  now : Int
  dedupe : DedupeFile
  tokenFile : TokenFile
  refreshOutcome : Nat → RefreshOutcome
  exchangeResponse : TokenData
  searchOutcome : Nat → HttpOutcome
  postOutcome : Nat → HttpOutcome

/-- Embedding of the movie path of `mark_as_watched` (lines 258-344):
dedupe pre-check, then `load_or_refresh_token`, then the authenticated
`search/imdb/<id>` GET, then (when the search produced a usable movie)
the `sync/history` POST loop.  Returns the event trace, the final token
state and the final dedupe file. -/
def mark_as_watched_movie (env : MovieEnv) :
    List Event × TokenState × DedupeFile :=
  let key := "movie:" ++ env.imdb
  let dd := is_recent_duplicate env.dedupe key env.now
  if dd.1 then ([], ⟨none, env.tokenFile⟩, dd.2)
  else
    let auth := load_or_refresh_token env.now env.refreshOutcome
      env.exchangeResponse env.tokenFile
    let search := traktRequestGo ("search/imdb/" ++ env.imdb)
      env.searchOutcome 0 maxRetries
    if search.2 then
      let post := syncPostGo env.postOutcome 0 maxRetries
      (auth.2 ++ search.1 ++ post.1, auth.1, dd.2)
    else
      (auth.2 ++ search.1, auth.1, dd.2)

/-- Recognizes a token-endpoint POST in an event trace. -/
def isAttempt : Event → Bool
  | .refreshAttempt _ => true
  | _ => false

/-- Recognizes a backoff delay in an event trace. -/
def isSleep : Event → Bool
  | .sleep _ => true
  | _ => false

/-- Recognizes a `save_token` write in an event trace. -/
def isSave : Event → Bool
  | .saveToken _ => true
  | _ => false

/-- Recognizes the interactive authorization flow in an event trace. -/
def isInteractive : Event → Bool
  | .interactiveAuth => true
  | _ => false

/-- Number of `save_token` writes in a trace. -/
def countSaves (evs : List Event) : Nat := (evs.filter isSave).length

/-- Number of interactive authorization flows in a trace. -/
def countInteractive (evs : List Event) : Nat := (evs.filter isInteractive).length

/-- A concrete stale-but-well-formed stored token, used as test input. -/
def sampleToken : TokenData :=
  ⟨some "stale-access", some "stale-refresh", some 7776000, some 1, some 1000⟩

/-- Script state holding `sampleToken` in memory and on disk. -/
def sampleState : TokenState := ⟨some sampleToken, .stored sampleToken⟩

/-- A concrete Trakt token-exchange response body: it carries
`access_token`, `refresh_token`, `expires_in` and `created_at` but no
`expires_at` field, like the provider's actual response. -/
def exchangeNoExpiresAt : TokenData :=
  ⟨some "new-access", some "new-refresh", some 7776000, some 1000000, none⟩

/-- A stored token whose expiry sits exactly at `now + 300` when
`now = 1000`. -/
def boundaryToken : TokenData :=
  ⟨some "acc-b", some "ref-b", some 7776000, some 1, some 1300⟩

/-- A stored token already past its refresh margin at `now = 1000`. -/
def expiredToken : TokenData :=
  ⟨some "acc-e", some "ref-e", some 7776000, some 1, some 600⟩

/-- A well-formed refresh-response body. -/
def freshBody : TokenData :=
  ⟨some "acc-f", some "ref-f", some 7776000, some 2, none⟩

/-- Script state holding `expiredToken`. -/
def transientState : TokenState := ⟨some expiredToken, .stored expiredToken⟩

/-- The parsed body of a 4xx token-endpoint response, e.g.
an invalid-grant error object: none of the token fields are present. -/
def legacyErrorBody : TokenData := ⟨none, none, none, none, none⟩

/-- A run of `mark_as_watched` on a movie with a stale token whose every
refresh attempt hits a network error, while the downstream API itself is
reachable. -/
def staleEnv : MovieEnv :=
  { imdb := "tt0241527", now := 2000000, dedupe := .missing,
    tokenFile := .stored sampleToken,
    refreshOutcome := fun _ => .netError, exchangeResponse := sampleToken,
    searchOutcome := fun _ => .status 200, postOutcome := fun _ => .status 201 }

/-- A dedupe map holding one entry two hours older than the next call. -/
def staleCache : DCache := fun k => if k = "movie:111" then some 100 else none

/-- A dedupe map holding one entry with the falsy timestamp `0`. -/
def zeroCache : DCache := fun k => if k = "movie:tt3" then some 0 else none

/-- A transient failure never stores a token. -/
lemma attemptSucceeds_of_transient (o : RefreshOutcome) (h : isTransient o = true) :
    attemptSucceeds o = none := by
  cases o with
  | ok b =>
    cases b with
    | none => rfl
    | some t =>
      simp [isTransient, Option.isNone_iff_eq_none] at h
      simp [attemptSucceeds, h]
  | httpError s => rfl
  | netError => rfl

/-- When all five attempts fail, the retry loop performs exactly five
POSTs with sleeps of 3, 6, 12 and 24 seconds between them, no sleep after
the last, and ends unrefreshed. -/
lemma refreshAttempts_exhaust (outcome : Nat → RefreshOutcome)
    (hfail : ∀ i, i < maxRetries → attemptSucceeds (outcome i) = none) :
    refreshAttempts outcome 0 maxRetries =
      ([.refreshAttempt 1, .sleep 3, .refreshAttempt 2, .sleep 6, .refreshAttempt 3,
        .sleep 12, .refreshAttempt 4, .sleep 24, .refreshAttempt 5], .authRequired) := by
  have h0 := hfail 0 (by decide)
  have h1 := hfail 1 (by decide)
  have h2 := hfail 2 (by decide)
  have h3 := hfail 3 (by decide)
  have h4 := hfail 4 (by decide)
  simp [maxRetries, refreshAttempts, h0, h1, h2, h3, h4, baseDelay, pow2]

/-- `refresh_token` on a present token, with every attempt failing:
full backoff trace and untouched state. -/
lemma refresh_token_exhaust (outcome : Nat → RefreshOutcome) (resp : TokenData)
    (s : TokenState) (tok : TokenData) (hs : s.token = some tok)
    (hfail : ∀ i, i < maxRetries → attemptSucceeds (outcome i) = none) :
    refresh_token outcome resp s =
      (s, [.refreshAttempt 1, .sleep 3, .refreshAttempt 2, .sleep 6, .refreshAttempt 3,
           .sleep 12, .refreshAttempt 4, .sleep 24, .refreshAttempt 5], .authRequired) := by
  simp [refresh_token, hs, refreshAttempts_exhaust outcome hfail]

/-- A successful attempt ends the loop at once with a single save. -/
lemma refreshAttempts_success (outcome : Nat → RefreshOutcome) (a r : Nat) (b : TokenData)
    (h : attemptSucceeds (outcome a) = some b) :
    refreshAttempts outcome a (r + 1) =
      ([.refreshAttempt (a + 1), .saveToken b], .refreshed b) := by
  simp [refreshAttempts, h]

/-- A failed attempt with attempts remaining sleeps and recurses. -/
lemma refreshAttempts_fail_step (outcome : Nat → RefreshOutcome) (a r : Nat)
    (h : attemptSucceeds (outcome a) = none) (hr : r ≠ 0) :
    refreshAttempts outcome a (r + 1) =
      (.refreshAttempt (a + 1) :: .sleep (baseDelay * pow2 a) ::
        (refreshAttempts outcome (a + 1) r).1,
       (refreshAttempts outcome (a + 1) r).2) := by
  simp [refreshAttempts, h, hr]

/-- The retry loop always performs its first POST. -/
lemma refreshAttempt_one_mem (outcome : Nat → RefreshOutcome) (r : Nat) :
    Event.refreshAttempt 1 ∈ (refreshAttempts outcome 0 (r + 1)).1 := by
  cases h : attemptSucceeds (outcome 0) with
  | some b => simp [refreshAttempts_success outcome 0 r b h]
  | none =>
    by_cases hr : r = 0
    · subst hr; simp [refreshAttempts, h]
    · simp [refreshAttempts_fail_step outcome 0 r h hr]

/-- `trakt_request` always performs its first GET. -/
lemma apiGet_mem_traktRequestGo (e : String) (outcome : Nat → HttpOutcome) (a r : Nat) :
    Event.apiGet e ∈ (traktRequestGo e outcome a (r + 1)).1 := by
  unfold traktRequestGo
  split <;> (try split) <;> simp

/-- `refresh_token` succeeding on the first attempt swaps the token,
writes the file once, and stops. -/
lemma refresh_token_success_first (outcome : Nat → RefreshOutcome) (resp : TokenData)
    (s : TokenState) (tok b : TokenData) (hs : s.token = some tok)
    (hb : attemptSucceeds (outcome 0) = some b) :
    refresh_token outcome resp s =
      (⟨some b, .stored b⟩, [.refreshAttempt 1, .saveToken b], .refreshed b) := by
  have h5 : refreshAttempts outcome 0 maxRetries =
      ([.refreshAttempt 1, .saveToken b], .refreshed b) :=
    refreshAttempts_success outcome 0 4 b hb
  simp [refresh_token, hs, h5]

/-- With a present token, the events of `refresh_token` are those of its
retry loop. -/
lemma refresh_token_events_some (outcome : Nat → RefreshOutcome) (resp : TokenData)
    (s : TokenState) (tok : TokenData) (hs : s.token = some tok) :
    (refresh_token outcome resp s).2.1 = (refreshAttempts outcome 0 maxRetries).1 := by
  simp only [refresh_token, hs]
  cases (refreshAttempts outcome 0 maxRetries).2 <;> simp

/-- The duplicate verdict of `is_recent_duplicate` is its cache guard. -/
lemma dup_fst (file : DedupeFile) (key : String) (now : Int) :
    (is_recent_duplicate file key now).1 =
      duplicateHit (load_dedupe_cache file) key now := by
  by_cases h : duplicateHit (load_dedupe_cache file) key now <;>
    simp [is_recent_duplicate, h]

/-- On a miss, `is_recent_duplicate` writes the pruned-and-updated map. -/
lemma dup_miss_snd (file : DedupeFile) (key : String) (now : Int)
    (h : duplicateHit (load_dedupe_cache file) key now = false) :
    (is_recent_duplicate file key now).2 =
      .content (setKey (pruneCache (load_dedupe_cache file)
        (now - 2 * DEDUPE_WINDOW_SECONDS)) key now) := by
  simp [is_recent_duplicate, h]

/-- On a hit, `is_recent_duplicate` reports a duplicate and leaves the
file untouched. -/
lemma dup_hit_eq (file : DedupeFile) (key : String) (now : Int)
    (h : duplicateHit (load_dedupe_cache file) key now = true) :
    is_recent_duplicate file key now = (true, file) := by
  simp [is_recent_duplicate, h]

/-- Updating a key makes it present. -/
lemma setKey_self (c : DCache) (key : String) (v : Int) : setKey c key v key = some v := by
  simp [setKey]

/-- Updating a key leaves other keys alone. -/
lemma setKey_other (c : DCache) (key : String) (v : Int) (k : String) (h : k ≠ key) :
    setKey c key v k = c k := by
  simp [setKey, h]

/-- Loading a written map is the identity. -/
lemma load_content (m : DCache) : load_dedupe_cache (.content m) = m := rfl

/-- Pruning keeps absent keys absent. -/
lemma pruneCache_none (c : DCache) (cutoff : Int) (k : String) (h : c k = none) :
    pruneCache c cutoff k = none := by
  simp [pruneCache, h]

/-- Pruning keeps entries at or above the cutoff. -/
lemma pruneCache_keep (c : DCache) (cutoff : Int) (k : String) (v : Int)
    (h : c k = some v) (hv : cutoff ≤ v) : pruneCache c cutoff k = some v := by
  simp [pruneCache, h, hv]

/-- Pruning removes entries below the cutoff. -/
lemma pruneCache_drop (c : DCache) (cutoff : Int) (k : String) (v : Int)
    (h : c k = some v) (hv : ¬ cutoff ≤ v) : pruneCache c cutoff k = none := by
  simp [pruneCache, h, hv]

/-- C1, counterexample: when every token-endpoint response is a 401,
`refresh_token` performs five POST attempts and four backoff sleeps — not
the zero additional attempts and zero additional delay the claim asserts
after a 4xx response. -/
theorem refresh_4xx_cex :
    ((refresh_token (fun _ => .httpError 401) sampleToken sampleState).2.1.filter
      isAttempt).length = 5 ∧
    ((refresh_token (fun _ => .httpError 401) sampleToken sampleState).2.1.filter
      isSleep).length = 4 := by
  decide

/-- C1, amended: a 4xx response on refresh is retried like any other
failure; a run whose five responses are all 4xx performs all five
attempts, sleeping 3, 6, 12 and 24 seconds between them, and only then
surfaces the authentication failure. -/
theorem refresh_4xx_retried (outcome : Nat → RefreshOutcome) (resp : TokenData)
    (s : TokenState) (tok : TokenData) (hs : s.token = some tok)
    (h4 : ∀ i, i < maxRetries →
      ∃ c, 400 ≤ c ∧ c < 500 ∧ outcome i = .httpError c) :
    (refresh_token outcome resp s).2.1 =
      [.refreshAttempt 1, .sleep 3, .refreshAttempt 2, .sleep 6, .refreshAttempt 3,
       .sleep 12, .refreshAttempt 4, .sleep 24, .refreshAttempt 5] ∧
    (refresh_token outcome resp s).2.2 = .authRequired := by
  have hfail : ∀ i, i < maxRetries → attemptSucceeds (outcome i) = none := by
    intro i hi
    obtain ⟨c, -, -, hc⟩ := h4 i hi
    rw [hc]; rfl
  rw [refresh_token_exhaust outcome resp s tok hs hfail]
  exact ⟨rfl, rfl⟩

/-- C1, witness: the amended statement at the all-401 run. -/
theorem refresh_4xx_retried_witness :
    (refresh_token (fun _ => .httpError 401) sampleToken sampleState).2.1 =
      [.refreshAttempt 1, .sleep 3, .refreshAttempt 2, .sleep 6, .refreshAttempt 3,
       .sleep 12, .refreshAttempt 4, .sleep 24, .refreshAttempt 5] ∧
    (refresh_token (fun _ => .httpError 401) sampleToken sampleState).2.2 = .authRequired :=
  refresh_4xx_retried (fun _ => .httpError 401) sampleToken sampleState sampleToken rfl
    (fun _ _ => ⟨401, by decide, by decide, rfl⟩)

/-- C2, counterexample: with the token file absent, `load_or_refresh_token`
persists the exchange response verbatim; for a response carrying
`expires_in = 7776000` but no `expires_at` field (as Trakt actually
responds), the persisted credential does not contain
`expires_at = now + expires_in`. -/
theorem request_new_token_verbatim_cex :
    (load_or_refresh_token 1000000 (fun _ => .netError) exchangeNoExpiresAt .missing).1.file
      = .stored exchangeNoExpiresAt ∧
    exchangeNoExpiresAt.expires_in = some 7776000 ∧
    exchangeNoExpiresAt.expires_at ≠ some (1000000 + 7776000) := by
  decide

/-- C2, amended: with the Credential file absent (or unparsable),
`load_or_refresh_token` invokes the interactive flow exactly once and
persists the exchange response verbatim as the credential, in memory and
on disk; no `expires_at` field is computed. -/
theorem load_or_refresh_absent_interactive (now : Int) (outcome : Nat → RefreshOutcome)
    (resp : TokenData) (file : TokenFile) (h : file = .missing ∨ file = .corrupt) :
    countInteractive (load_or_refresh_token now outcome resp file).2 = 1 ∧
    (load_or_refresh_token now outcome resp file).1 = ⟨some resp, .stored resp⟩ := by
  rcases h with h | h <;> subst h <;>
    simp [load_or_refresh_token, request_new_token, countInteractive, isInteractive,
      List.filter]

/-- C2, witness: the amended statement at a missing file and the concrete
exchange response. -/
theorem load_or_refresh_absent_interactive_witness :
    countInteractive
      (load_or_refresh_token 0 (fun _ => .netError) exchangeNoExpiresAt .missing).2 = 1 ∧
    (load_or_refresh_token 0 (fun _ => .netError) exchangeNoExpiresAt .missing).1 =
      ⟨some exchangeNoExpiresAt, .stored exchangeNoExpiresAt⟩ :=
  load_or_refresh_absent_interactive 0 (fun _ => .netError) exchangeNoExpiresAt .missing
    (Or.inl rfl)

/-- C3, counterexample: a stored credential with `expires_at = now + 300`
exactly (now = 1000, expires_at = 1300) satisfies the claim's refresh
condition `expires_at ≤ now + 300`, yet `load_or_refresh_token` performs
no refresh: the trace is empty and the stored credential is returned
unchanged. -/
theorem load_or_refresh_boundary_cex :
    boundaryToken.expires_at.getD 0 = 1000 + 300 ∧
    (load_or_refresh_token 1000 (fun _ => .netError) boundaryToken
      (.stored boundaryToken)).2 = [] ∧
    (load_or_refresh_token 1000 (fun _ => .netError) boundaryToken
      (.stored boundaryToken)).1 = ⟨some boundaryToken, .stored boundaryToken⟩ := by
  decide

/-- C3, amended: for a persisted credential, `load_or_refresh_token`
initiates a refresh if and only if `expires_at - 300 < now` (strictly);
otherwise it performs no network call and returns the stored credential
unchanged; when it refreshes and the first attempt succeeds, the trace is
one attempt and exactly one persisted write, and the new token is
installed. -/
theorem load_or_refresh_condition (now : Int) (t : TokenData)
    (outcome : Nat → RefreshOutcome) (resp : TokenData) :
    ((∃ n, Event.refreshAttempt n ∈
        (load_or_refresh_token now outcome resp (.stored t)).2) ↔
      t.expires_at.getD 0 - 300 < now) ∧
    (¬ t.expires_at.getD 0 - 300 < now →
      (load_or_refresh_token now outcome resp (.stored t)).1 = ⟨some t, .stored t⟩ ∧
      (load_or_refresh_token now outcome resp (.stored t)).2 = []) ∧
    (t.expires_at.getD 0 - 300 < now → ∀ b, attemptSucceeds (outcome 0) = some b →
      (load_or_refresh_token now outcome resp (.stored t)).2 =
        [.refreshAttempt 1, .saveToken b] ∧
      countSaves (load_or_refresh_token now outcome resp (.stored t)).2 = 1 ∧
      (load_or_refresh_token now outcome resp (.stored t)).1 = ⟨some b, .stored b⟩) := by
  by_cases hc : t.expires_at.getD 0 - 300 < now
  · have hev : (load_or_refresh_token now outcome resp (.stored t)).2 =
        (refreshAttempts outcome 0 maxRetries).1 := by
      simp only [load_or_refresh_token, if_pos hc]
      exact refresh_token_events_some outcome resp ⟨some t, .stored t⟩ t rfl
    refine ⟨⟨fun _ => hc, fun _ => ?_⟩, fun h => absurd hc h, fun _ b hb => ?_⟩
    · refine ⟨1, ?_⟩
      rw [hev]
      exact refreshAttempt_one_mem outcome 4
    · have hr := refresh_token_success_first outcome resp ⟨some t, .stored t⟩ t b rfl hb
      have hl : load_or_refresh_token now outcome resp (.stored t) =
          ((refresh_token outcome resp ⟨some t, .stored t⟩).1,
           (refresh_token outcome resp ⟨some t, .stored t⟩).2.1) := by
        simp [load_or_refresh_token, hc]
      rw [hl, hr]
      refine ⟨rfl, ?_, rfl⟩
      simp [countSaves, isSave, List.filter]
  · have hl : load_or_refresh_token now outcome resp (.stored t) =
        (⟨some t, .stored t⟩, []) := by
      simp [load_or_refresh_token, hc]
    refine ⟨⟨fun ⟨n, hn⟩ => ?_, fun h => absurd h hc⟩, fun _ => by rw [hl]; exact ⟨rfl, rfl⟩,
      fun h => absurd h hc⟩
    rw [hl] at hn
    simp at hn

/-- C3, witness: the refresh-and-first-attempt-success case at an expired
stored token. -/
theorem load_or_refresh_condition_witness :
    (load_or_refresh_token 1000 (fun _ => .ok (some freshBody)) freshBody
      (.stored expiredToken)).2 = [.refreshAttempt 1, .saveToken freshBody] ∧
    countSaves (load_or_refresh_token 1000 (fun _ => .ok (some freshBody)) freshBody
      (.stored expiredToken)).2 = 1 ∧
    (load_or_refresh_token 1000 (fun _ => .ok (some freshBody)) freshBody
      (.stored expiredToken)).1 = ⟨some freshBody, .stored freshBody⟩ :=
  (load_or_refresh_condition 1000 expiredToken (fun _ => .ok (some freshBody))
    freshBody).2.2 (by decide) freshBody rfl

/-- C4: when all five refresh attempts fail transiently, the delays slept
before attempts 2, 3, 4 and 5 are exactly 3, 6, 12 and 24 seconds, no
delay or attempt follows the fifth failure, and the run ends in the
authentication-required outcome. -/
theorem refresh_backoff_schedule (outcome : Nat → RefreshOutcome) (resp : TokenData)
    (s : TokenState) (tok : TokenData) (hs : s.token = some tok)
    (htrans : ∀ i, i < maxRetries → isTransient (outcome i) = true) :
    (refresh_token outcome resp s).2.1 =
      [.refreshAttempt 1, .sleep 3, .refreshAttempt 2, .sleep 6, .refreshAttempt 3,
       .sleep 12, .refreshAttempt 4, .sleep 24, .refreshAttempt 5] ∧
    (refresh_token outcome resp s).2.2 = .authRequired := by
  have hfail : ∀ i, i < maxRetries → attemptSucceeds (outcome i) = none :=
    fun i hi => attemptSucceeds_of_transient _ (htrans i hi)
  rw [refresh_token_exhaust outcome resp s tok hs hfail]
  exact ⟨rfl, rfl⟩

/-- C4, witness: the backoff schedule at an all-network-error run. -/
theorem refresh_backoff_schedule_witness :
    (refresh_token (fun _ => .netError) freshBody transientState).2.1 =
      [.refreshAttempt 1, .sleep 3, .refreshAttempt 2, .sleep 6, .refreshAttempt 3,
       .sleep 12, .refreshAttempt 4, .sleep 24, .refreshAttempt 5] ∧
    (refresh_token (fun _ => .netError) freshBody transientState).2.2 = .authRequired :=
  refresh_backoff_schedule (fun _ => .netError) freshBody transientState expiredToken rfl
    (fun _ _ => rfl)

/-- C5, counterexample: the older `refresh_token` of
src/tautulli/traktsync.py stores `response.json()` unconditionally, so a
failed refresh whose response body is an error object (no `access_token`)
overwrites both the in-memory token and the persisted file, destroying the
previously valid state. -/
theorem refresh_legacy_overwrites_cex :
    legacyErrorBody.access_token = none ∧
    (refresh_token_legacy legacyErrorBody sampleState).1.file = .stored legacyErrorBody ∧
    (refresh_token_legacy legacyErrorBody sampleState).1.file ≠ .stored sampleToken ∧
    (refresh_token_legacy legacyErrorBody sampleState).1.token ≠ some sampleToken := by
  decide

/-- C5, amended: in src/tautulli/traktsync/traktsync.py, any execution of
`refresh_token` that ends with retries exhausted leaves the in-memory
credential and the persisted token file exactly as they were before the
call; the older src/tautulli/traktsync.py variant instead overwrites both
with the response body. -/
theorem refresh_failure_keeps_state (outcome : Nat → RefreshOutcome) (resp : TokenData)
    (s : TokenState) (tok : TokenData) (hs : s.token = some tok)
    (hres : (refresh_token outcome resp s).2.2 = .authRequired) :
    (refresh_token outcome resp s).1 = s := by
  simp only [refresh_token, hs] at hres ⊢
  cases hp : (refreshAttempts outcome 0 maxRetries).2 with
  | refreshed b => simp [hp] at hres
  | reauthorized b => simp [hp]
  | authRequired => simp [hp]

/-- C5, witness: state preservation at an all-500 run. -/
theorem refresh_failure_keeps_state_witness :
    (refresh_token (fun _ => .httpError 500) freshBody sampleState).1 = sampleState :=
  refresh_failure_keeps_state (fun _ => .httpError 500) freshBody sampleState sampleToken
    rfl (by decide)

/-- C6, counterexample: with `t1 = 0` the first call records `0` as the
stored timestamp, and a second call inside the window (`t2 = 100`)
returns `false` (the zero timestamp is falsy, hence treated as absent),
not `true` as the claim asserts for every recorded `t1`. -/
theorem dedupe_zero_first_cex :
    (is_recent_duplicate .missing "movie:tt1" 0).1 = false ∧
    load_dedupe_cache (is_recent_duplicate .missing "movie:tt1" 0).2 "movie:tt1" =
      some 0 ∧
    (100:Int) - 0 < DEDUPE_WINDOW_SECONDS ∧
    (is_recent_duplicate (is_recent_duplicate .missing "movie:tt1" 0).2
      "movie:tt1" 100).1 = false := by
  decide

/-- C6, amended: for any nonzero `t1` recorded by a first call returning
`false`, a second call on the same key returns `true` with the file
untouched (stored timestamp stays `t1`) when `t2 - t1 < 3600`, and
returns `false` updating the stored timestamp to `t2` when
`t2 - t1 ≥ 3600`. -/
theorem dedupe_second_call (file : DedupeFile) (k : String) (t1 t2 : Int)
    (h0 : t1 ≠ 0) (h1 : (is_recent_duplicate file k t1).1 = false) :
    load_dedupe_cache (is_recent_duplicate file k t1).2 k = some t1 ∧
    (t2 - t1 < DEDUPE_WINDOW_SECONDS →
      (is_recent_duplicate (is_recent_duplicate file k t1).2 k t2).1 = true ∧
      (is_recent_duplicate (is_recent_duplicate file k t1).2 k t2).2 =
        (is_recent_duplicate file k t1).2) ∧
    (DEDUPE_WINDOW_SECONDS ≤ t2 - t1 →
      (is_recent_duplicate (is_recent_duplicate file k t1).2 k t2).1 = false ∧
      load_dedupe_cache
        (is_recent_duplicate (is_recent_duplicate file k t1).2 k t2).2 k = some t2) := by
  have hmiss : duplicateHit (load_dedupe_cache file) k t1 = false := by
    rw [← dup_fst]; exact h1
  have hlook : load_dedupe_cache (is_recent_duplicate file k t1).2 k = some t1 := by
    rw [dup_miss_snd file k t1 hmiss]
    simp [load_dedupe_cache, setKey_self]
  refine ⟨hlook, fun hw => ?_, fun hw => ?_⟩
  · have hhit : duplicateHit
        (load_dedupe_cache (is_recent_duplicate file k t1).2) k t2 = true := by
      simp [duplicateHit, hlook, h0, hw]
    rw [dup_hit_eq _ _ _ hhit]
    exact ⟨rfl, rfl⟩
  · have hhit : duplicateHit
        (load_dedupe_cache (is_recent_duplicate file k t1).2) k t2 = false := by
      simp [duplicateHit, hlook, h0, not_lt.mpr hw]
    refine ⟨by rw [dup_fst, hhit], ?_⟩
    rw [dup_miss_snd _ _ _ hhit]
    simp [load_dedupe_cache, setKey_self]

/-- C6, witness: the amended statement at `t1 = 1000`, `t2 = 1500` on an
initially absent file. -/
theorem dedupe_second_call_witness :
    load_dedupe_cache (is_recent_duplicate .missing "movie:tt2" 1000).2 "movie:tt2" =
      some 1000 ∧
    ((1500:Int) - 1000 < DEDUPE_WINDOW_SECONDS →
      (is_recent_duplicate (is_recent_duplicate .missing "movie:tt2" 1000).2
        "movie:tt2" 1500).1 = true ∧
      (is_recent_duplicate (is_recent_duplicate .missing "movie:tt2" 1000).2
        "movie:tt2" 1500).2 = (is_recent_duplicate .missing "movie:tt2" 1000).2) ∧
    (DEDUPE_WINDOW_SECONDS ≤ (1500:Int) - 1000 →
      (is_recent_duplicate (is_recent_duplicate .missing "movie:tt2" 1000).2
        "movie:tt2" 1500).1 = false ∧
      load_dedupe_cache (is_recent_duplicate
        (is_recent_duplicate .missing "movie:tt2" 1000).2 "movie:tt2" 1500).2
        "movie:tt2" = some 1500) :=
  dedupe_second_call .missing "movie:tt2" 1000 1500 (by decide) (by decide)

/-- C7: after any call of `is_recent_duplicate` that returns `false`,
every entry of the persisted map has `last_seen_at ≥ now - 2*3600`, and
any other key whose old entry was below that cutoff is removed from the
persisted map. -/
theorem dedupe_write_prunes_stale (file : DedupeFile) (key : String) (now : Int)
    (h : (is_recent_duplicate file key now).1 = false) :
    (∀ k v, load_dedupe_cache (is_recent_duplicate file key now).2 k = some v →
      now - 2 * DEDUPE_WINDOW_SECONDS ≤ v) ∧
    (∀ k, k ≠ key → ∀ v, load_dedupe_cache file k = some v →
      v < now - 2 * DEDUPE_WINDOW_SECONDS →
      load_dedupe_cache (is_recent_duplicate file key now).2 k = none) := by
  have hmiss : duplicateHit (load_dedupe_cache file) key now = false := by
    rw [← dup_fst]; exact h
  have hsnd := dup_miss_snd file key now hmiss
  constructor
  · intro k v hv
    rw [hsnd, load_content] at hv
    by_cases hk : k = key
    · subst hk
      rw [setKey_self] at hv
      have hW : (0:Int) ≤ 2 * DEDUPE_WINDOW_SECONDS := by
        norm_num [DEDUPE_WINDOW_SECONDS]
      cases hv
      linarith
    · rw [setKey_other _ _ _ _ hk] at hv
      cases hck : load_dedupe_cache file k with
      | none => rw [pruneCache_none _ _ _ hck] at hv; cases hv
      | some w =>
        by_cases hcut : now - 2 * DEDUPE_WINDOW_SECONDS ≤ w
        · rw [pruneCache_keep _ _ _ _ hck hcut] at hv
          cases hv
          exact hcut
        · rw [pruneCache_drop _ _ _ _ hck hcut] at hv
          cases hv
  · intro k hk v hkv hstale
    rw [hsnd, load_content, setKey_other _ _ _ _ hk]
    exact pruneCache_drop _ _ _ _ hkv (by linarith)

/-- C7, witness: at a map holding `movie:111` at time 100, a call for a
different key at time 7301 (so 7201 seconds later) returns `false` and
the stale entry is pruned, as the instantiated second conjunct shows. -/
theorem dedupe_write_prunes_stale_witness :
    (is_recent_duplicate (.content staleCache) "episode:5:1:2" 7301).1 = false ∧
    ((∀ k v, load_dedupe_cache
        (is_recent_duplicate (.content staleCache) "episode:5:1:2" 7301).2 k = some v →
      (7301:Int) - 2 * DEDUPE_WINDOW_SECONDS ≤ v) ∧
    (∀ k, k ≠ "episode:5:1:2" → ∀ v,
      load_dedupe_cache (.content staleCache) k = some v →
      v < (7301:Int) - 2 * DEDUPE_WINDOW_SECONDS →
      load_dedupe_cache
        (is_recent_duplicate (.content staleCache) "episode:5:1:2" 7301).2 k = none)) :=
  ⟨by decide, dedupe_write_prunes_stale (.content staleCache) "episode:5:1:2" 7301
    (by decide)⟩

/-- C8: a missing or corrupt dedupe file is treated as an empty map: the
call returns `false` and the rebuilt persisted map contains exactly the
entry mapping the key to `now`. -/
theorem dedupe_missing_rebuilds (file : DedupeFile) (key : String) (now : Int)
    (h : file = .missing ∨ file = .corrupt) :
    (is_recent_duplicate file key now).1 = false ∧
    load_dedupe_cache (is_recent_duplicate file key now).2 key = some now ∧
    (∀ k, k ≠ key → load_dedupe_cache (is_recent_duplicate file key now).2 k = none) := by
  have hload : load_dedupe_cache file = fun _ => none := by
    rcases h with h | h <;> subst h <;> rfl
  have hmiss : duplicateHit (load_dedupe_cache file) key now = false := by
    rw [hload]; rfl
  have hsnd := dup_miss_snd file key now hmiss
  refine ⟨by rw [dup_fst, hmiss], ?_, ?_⟩
  · rw [hsnd, load_content]
    exact setKey_self _ _ _
  · intro k hk
    rw [hsnd, load_content, setKey_other _ _ _ _ hk]
    exact pruneCache_none _ _ _ (by rw [hload])

/-- C8, witness: the corrupt-file scenario at key `movie:123`. -/
theorem dedupe_missing_rebuilds_witness :
    (is_recent_duplicate .corrupt "movie:123" 555).1 = false ∧
    load_dedupe_cache (is_recent_duplicate .corrupt "movie:123" 555).2 "movie:123" =
      some 555 ∧
    (∀ k, k ≠ "movie:123" →
      load_dedupe_cache (is_recent_duplicate .corrupt "movie:123" 555).2 k = none) :=
  dedupe_missing_rebuilds .corrupt "movie:123" 555 (Or.inr rfl)

/-- C9, counterexample: in a run whose refresh exchange exhausts all its
retries (authentication-required outcome), `mark_as_watched` still
performs the downstream authenticated `search/imdb` GET and the
`sync/history` POST, with an Authorization header built from the stale
token — it does not abort. -/
theorem mark_as_watched_no_abort_cex :
    (refresh_token staleEnv.refreshOutcome staleEnv.exchangeResponse
      ⟨some sampleToken, .stored sampleToken⟩).2.2 = .authRequired ∧
    Event.apiGet "search/imdb/tt0241527" ∈ (mark_as_watched_movie staleEnv).1 ∧
    Event.apiPost "sync/history" ∈ (mark_as_watched_movie staleEnv).1 ∧
    get_headers_hasAuth (mark_as_watched_movie staleEnv).2.1.token = true := by
  decide

/-- C9, amended: when the refresh exchange exhausts its retries, the
caller does not abort: `mark_as_watched` proceeds to issue the downstream
authenticated API call with the stale credential still installed. -/
theorem mark_proceeds_after_auth_failure (env : MovieEnv) (t : TokenData)
    (hdd : (is_recent_duplicate env.dedupe ("movie:" ++ env.imdb) env.now).1 = false)
    (ht : env.tokenFile = .stored t)
    (hdue : t.expires_at.getD 0 - 300 < env.now)
    (hfail : ∀ i, i < maxRetries → attemptSucceeds (env.refreshOutcome i) = none) :
    Event.apiGet ("search/imdb/" ++ env.imdb) ∈ (mark_as_watched_movie env).1 ∧
    (mark_as_watched_movie env).2.1 = ⟨some t, .stored t⟩ := by
  have href := refresh_token_exhaust env.refreshOutcome env.exchangeResponse
    ⟨some t, .stored t⟩ t rfl hfail
  have hauth : load_or_refresh_token env.now env.refreshOutcome env.exchangeResponse
      env.tokenFile =
      (⟨some t, .stored t⟩,
       [.refreshAttempt 1, .sleep 3, .refreshAttempt 2, .sleep 6, .refreshAttempt 3,
        .sleep 12, .refreshAttempt 4, .sleep 24, .refreshAttempt 5]) := by
    rw [ht]
    simp [load_or_refresh_token, hdue, href]
  have hget : Event.apiGet ("search/imdb/" ++ env.imdb) ∈
      (traktRequestGo ("search/imdb/" ++ env.imdb) env.searchOutcome 0 maxRetries).1 :=
    apiGet_mem_traktRequestGo ("search/imdb/" ++ env.imdb) env.searchOutcome 0 4
  simp only [mark_as_watched_movie, hdd, Bool.false_eq_true, if_false]
  split <;> simp [hauth, List.mem_append, hget]

/-- C9, witness: the amended statement at the concrete stale-token run. -/
theorem mark_proceeds_after_auth_failure_witness :
    Event.apiGet ("search/imdb/" ++ staleEnv.imdb) ∈ (mark_as_watched_movie staleEnv).1 ∧
    (mark_as_watched_movie staleEnv).2.1 = ⟨some sampleToken, .stored sampleToken⟩ :=
  mark_proceeds_after_auth_failure staleEnv sampleToken (by decide) rfl (by decide)
    (fun _ _ => rfl)

/-- C10: a stored timestamp of `0` is falsy and treated as absent:
`is_recent_duplicate` returns `false` for every `now` (even inside the
window) and overwrites the entry's timestamp with `now`. -/
theorem dedupe_zero_treated_absent (file : DedupeFile) (key : String) (now : Int)
    (h : load_dedupe_cache file key = some 0) :
    (is_recent_duplicate file key now).1 = false ∧
    load_dedupe_cache (is_recent_duplicate file key now).2 key = some now := by
  have hmiss : duplicateHit (load_dedupe_cache file) key now = false := by
    simp [duplicateHit, h]
  refine ⟨by rw [dup_fst, hmiss], ?_⟩
  rw [dup_miss_snd file key now hmiss, load_content]
  exact setKey_self _ _ _

/-- C10, witness: the zero-timestamp entry at `now = 42`, well inside the
window. -/
theorem dedupe_zero_treated_absent_witness :
    (is_recent_duplicate (.content zeroCache) "movie:tt3" 42).1 = false ∧
    load_dedupe_cache (is_recent_duplicate (.content zeroCache) "movie:tt3" 42).2
      "movie:tt3" = some 42 :=
  dedupe_zero_treated_absent (.content zeroCache) "movie:tt3" 42 (by decide)

end TraktSync
